import Mathlib

/-! Verification development for the turn-taking and interruption coordinator
implemented in src/components/ImmersiveEVI.tsx, together with the judge-speech
API handler in src/app/api/send-assistant-input/route.ts.  All definitions are
shallow embeddings of the corresponding TypeScript functions; times are in
milliseconds (Nat), strings keep their JS contents (ASCII in all inputs of
interest, so UTF-16 versus codepoint length differences do not matter). -/

namespace ImmersiveEVI

/-- Keyword lists for PAUSE, QUICK, DETAILED modes (ImmersiveEVI.tsx lines 18-20). -/
def PAUSE_KEYWORDS : List String :=
  ["hold on", "wait", "one second", "let me think", "give me a moment", "pause"]

/-- Brevity keywords (line 19). -/
def QUICK_KEYWORDS : List String :=
  ["quick", "brief", "short", "hurry", "rush", "fast"]

/-- Elaboration keywords (line 20). -/
def DETAILED_KEYWORDS : List String :=
  ["detail", "explain", "more time", "elaborate", "in depth", "how does that work", "what do you mean"]

/-- Judge debounce interval, ms (line 23). -/
def JUDGE_DEBOUNCE_MS : Nat := 400

/-- Minimum word count before a judge call (line 24). -/
def MIN_WORDS_FOR_JUDGE : Nat := 8

/-- Minimum speaking time before a judge call, in ms (line 25 has 1.5 s;
`speakingTime < 1.5` with `speakingTime = (now - turnStart)/1000` is equivalent
to `now - turnStart < 1500` on integer clock values). -/
def MIN_SPEAKING_TIME_MS : Nat := 1500

/-- Word counter used at line 92: `speech.split(/\s+/).filter(Boolean).length`,
i.e. the number of maximal runs of non-whitespace characters.  The accumulator
records whether the previous character was whitespace (true at the start). -/
def wordCountAux : Bool → List Char → Nat
  | _, [] => 0
  | prevSpace, c :: cs =>
    (if prevSpace && !c.isWhitespace then 1 else 0) + wordCountAux c.isWhitespace cs

/-- Word count of an utterance. -/
def wordCount (speech : String) : Nat := wordCountAux true speech.data

/-- A dispatched judge network call (speech body, issue timestamp, and the
generation token standing for the AbortController created at lines 104-107). -/
structure JudgeCall where
  token : Nat
  speech : String
  issuedAt : Nat
  deriving DecidableEq

/-- The refs read by `callLLMJudge` (lines 63-68): cooldown and interrupting
flags, turn start time, last judge issue time, plus the cancellation bookkeeping
(`outstanding` is the token of the still-pending call, `canceled` the tokens
whose responses must be discarded, `nextToken` the generation counter). -/
structure JudgeState where
  interruptCooldown : Bool
  isInterrupting : Bool
  turnStartTime : Nat
  lastJudgeTime : Nat
  outstanding : Option Nat
  canceled : List Nat
  nextToken : Nat
  deriving DecidableEq

/-- The precondition pipeline of `callLLMJudge` (lines 89-107): the four
checks in source order, each returning without a call on failure; on success
the previous outstanding call is aborted and a fresh call is dispatched. -/
def callLLMJudge (st : JudgeState) (speech : String) (now : Nat) :
    Option JudgeCall × JudgeState :=
  if st.interruptCooldown || st.isInterrupting then (none, st)
  else if wordCount speech < MIN_WORDS_FOR_JUDGE then (none, st)
  else if now - st.turnStartTime < MIN_SPEAKING_TIME_MS then (none, st)
  else if now - st.lastJudgeTime < JUDGE_DEBOUNCE_MS then (none, st)
  else
    (some { token := st.nextToken, speech := speech, issuedAt := now },
     { st with
        lastJudgeTime := now,
        canceled := match st.outstanding with
          | some k => k :: st.canceled
          | none => st.canceled,
        outstanding := some st.nextToken,
        nextToken := st.nextToken + 1 })

/-- A judge verdict as consumed at line 123. -/
structure Verdict where
  interrupt : Bool
  message : Option String
  deriving DecidableEq

/-- Handling of a judge response (lines 121-134 plus the guard of
`triggerInterrupt` at line 138): a response belonging to an aborted call is
discarded (the fetch rejects with AbortError, caught at line 130); otherwise an
interruption starts only when `interrupt` holds, the message is present and
non-empty (JS truthiness at line 126), the chat id is known, and no
interruption is already running.  The returned option is the message the
interruption sequence is started with. -/
def applyJudgeResponse (st : JudgeState) (tok : Nat) (chatId : Option String)
    (v : Verdict) : JudgeState × Option String :=
  if st.canceled.contains tok then (st, none)
  else
    match v.message with
    | none => (st, none)
    | some m =>
      if v.interrupt && !(m == "") && chatId.isSome && !st.isInterrupting then
        ({ st with isInterrupting := true, interruptCooldown := true }, some m)
      else (st, none)

/-- Verbosity mode (line 53). -/
inductive Mode
  | normal
  | quick
  | detailed
  deriving DecidableEq

/-- Outcome of the text-injection fetch at lines 160-175: HTTP ok, HTTP
non-ok status, or a thrown network error (caught at line 173). -/
inductive InjectOutcome
  | ok
  | httpError (status : Nat)
  | netError
  deriving DecidableEq

/-- Observable actions emitted by the component: audio-control calls into the
voice SDK, state-flag writes, timer management, session-settings updates, the
out-of-band injection request, conversation bookkeeping, and console logs. -/
inductive Act
  | muteAudio
  | unmuteAudio
  | mute
  | unmute
  | setPaused
  | setIdle
  | cancelMicTimer
  | armMicTimer (ms : Nat)
  | setMode (m : Mode)
  | sendSessionSettings (ctx : String)
  | setCooldown
  | setInterrupting
  | clearInterrupting
  | clearCooldown
  | pauseAssistant
  | resumeAssistant
  | injectRequest (chatId text : String)
  | historyAppend (role content : String)
  | transcriptAppend (content : String)
  | log (s : String)
  deriving DecidableEq

/-- Lower-cased character list of a string, modelling `text.toLowerCase()`
(all keywords are ASCII). -/
def lowerStr (s : String) : List Char := s.data.map Char.toLower

/-- Contiguous-sublist test on character lists: `pat` occurs as a prefix of
some suffix of `l`. -/
def containsSeq (pat : List Char) : List Char → Bool
  | [] => pat.isEmpty
  | c :: t => pat.isPrefixOf (c :: t) || containsSeq pat t

/-- Substring test modelling `lower.includes(kw)` (the keyword lists are
already lower-case in the source). -/
def containsKw (textLower : List Char) (kw : String) : Bool :=
  containsSeq kw.data textLower

/-- Session-settings text sent on entering quick mode (line 323). -/
def quickInstruction : String :=
  "Keep responses very brief and concise. Answer in 1 brief sentence only."

/-- Session-settings text sent on entering detailed mode (line 337). -/
def detailedInstruction : String :=
  "Detailed mode: Answer in two sentences and include a quick example."

/-- Model of `triggerPause` (lines 346-361): bail out while an interruption is running;
otherwise mute agent audio, mute the microphone, set the paused flag, clear any
existing mic-unmute timeout handle (`timerRef` records whether the ref is
non-null), and arm the 2000 ms re-open timer. -/
def triggerPause (isInterrupting timerRef : Bool) : List Act :=
  if isInterrupting then []
  else
    [Act.muteAudio, Act.mute, Act.setPaused] ++
      (if timerRef then [Act.cancelMicTimer] else []) ++ [Act.armMicTimer 2000]

/-- The 2-second timer callback armed by `triggerPause` (lines 355-360): it
re-opens the microphone only, and only when no interruption is running. -/
def micTimerFire (isInterrupting : Bool) : List Act :=
  if isInterrupting then [] else [Act.unmute]

/-- The actions `triggerPause` can emit: the pause action set of the
mutual-exclusion claim. -/
def isPauseAct : Act → Bool
  | Act.muteAudio => true
  | Act.mute => true
  | Act.setPaused => true
  | Act.cancelMicTimer => true
  | Act.armMicTimer _ => true
  | _ => false

/-- Model of `detectKeywords` (lines 306-344): lower-case the text, then test the pause
keywords (skipped while already paused), the quick keywords (skipped while
already in quick mode) and the detailed keywords (skipped while already in
detailed mode), in that order, returning on the first branch taken. -/
def detectKeywords (text : String) (isPaused : Bool) (mode : Mode)
    (isInterrupting timerRef : Bool) : List Act :=
  let lower := lowerStr text
  if PAUSE_KEYWORDS.any (fun kw => containsKw lower kw) && !isPaused then
    triggerPause isInterrupting timerRef
  else if QUICK_KEYWORDS.any (fun kw => containsKw lower kw) && !(mode == Mode.quick) then
    [Act.setMode Mode.quick, Act.sendSessionSettings quickInstruction]
  else if DETAILED_KEYWORDS.any (fun kw => containsKw lower kw) && !(mode == Mode.detailed) then
    [Act.setMode Mode.detailed, Act.sendSessionSettings detailedInstruction]
  else []

/-- Pause-phrase test used by the resume effect (line 382). -/
def isPausePhrase (content : String) : Bool :=
  PAUSE_KEYWORDS.any (fun kw => containsKw (lowerStr content) kw)

/-- Model of `handleResume` (lines 363-371): bail out while interrupting; otherwise
clear the mic-unmute timeout if its handle is set, unmute agent audio, unmute
the microphone, and clear the paused flag. -/
def handleResume (isInterrupting timerRef : Bool) : List Act :=
  if isInterrupting then []
  else
    (if timerRef then [Act.cancelMicTimer] else []) ++
      [Act.unmuteAudio, Act.unmute, Act.setIdle]

/-- The mute/pause-relevant component state: paused flag, microphone mute,
agent-audio mute, interrupting flag, cooldown flag, and whether the mic-unmute
timeout ref is non-null (the source never nulls it once set). -/
structure MState where
  isPaused : Bool
  isMuted : Bool
  isAudioMuted : Bool
  isInterrupting : Bool
  cooldown : Bool
  timerRef : Bool
  deriving DecidableEq

/-- Initial component state: nothing paused, muted or interrupting. -/
def initState : MState :=
  { isPaused := false, isMuted := false, isAudioMuted := false,
    isInterrupting := false, cooldown := false, timerRef := false }

/-- The resume effect (lines 373-387): runs only while paused with the
microphone open; on a user message whose text is not a pause phrase and longer
than 3 characters it calls `handleResume`. -/
def resumeEffect (s : MState) (content : String) : List Act :=
  if !s.isPaused || s.isMuted then []
  else if isPausePhrase content = false ∧ 3 < content.length then
    handleResume s.isInterrupting s.timerRef
  else []

/-- One mute/pause-relevant transition of the component.  Each constructor is a
code path together with the guard the source checks before mutating these
fields; guards that only restrict the transition further (message content
tests, timer bookkeeping) are dropped, so every real execution is a chain of
these steps.
* `pauseEnter`: `triggerPause` past its interrupt guard (lines 348-360).
* `micTimerFireStep`: the 2 s timer callback (lines 355-360), which unmutes the
  microphone only when not interrupting.
* `resumeStep`: `handleResume` reached through the resume effect, whose guard
  requires paused and mic open (line 374) and not interrupting (line 365).
* `interruptStart`: entry of `triggerInterrupt` (lines 138-153), which sets the
  cooldown and interrupting flags and mutes the microphone.
* `interruptHoldEnd`: the 4 s timeout (lines 191-195), which unmutes the
  microphone and clears the interrupting flag.
* `cooldownEnd`: the 8 s timeout (lines 198-201).
* `audioDuck` / `audioUnduck`: the `user_interruption` handling (lines 221-225),
  which only toggles agent-audio mute. -/
inductive MStep : MState → MState → Prop
  | pauseEnter (s : MState) (h : s.isInterrupting = false) :
      MStep s { s with isPaused := true, isMuted := true, isAudioMuted := true, timerRef := true }
  | micTimerFireStep (s : MState) :
      MStep s { s with isMuted := if s.isInterrupting then s.isMuted else false }
  | resumeStep (s : MState) (h1 : s.isPaused = true) (h2 : s.isMuted = false)
      (h3 : s.isInterrupting = false) :
      MStep s { s with isPaused := false, isMuted := false, isAudioMuted := false }
  | interruptStart (s : MState) (h : s.isInterrupting = false) :
      MStep s { s with isInterrupting := true, cooldown := true, isMuted := true }
  | interruptHoldEnd (s : MState) :
      MStep s { s with isMuted := false, isInterrupting := false }
  | cooldownEnd (s : MState) :
      MStep s { s with cooldown := false }
  | audioDuck (s : MState) :
      MStep s { s with isAudioMuted := true }
  | audioUnduck (s : MState) :
      MStep s { s with isAudioMuted := false }

/-- States reachable from the initial component state. -/
inductive Reachable : MState → Prop
  | init : Reachable initState
  | step {s s' : MState} : Reachable s → MStep s s' → Reachable s'

/-- The console-log entry produced by the injection fetch result
(lines 168-174). -/
def injectLog : InjectOutcome → Act
  | InjectOutcome.ok => Act.log "assistant_input sent"
  | InjectOutcome.httpError s => Act.log ("REST API failed: " ++ toString s)
  | InjectOutcome.netError => Act.log "REST API error"

/-- Model of `triggerInterrupt` (lines 137-203) as a timed action trace, with time 0 at
entry.  `injectDur` is the duration of the injection fetch (dispatched at
200 ms after the settle delay, resolving at `200 + injectDur`), `outcome` its
result.  The history/transcript appends run after the fetch regardless of the
outcome (lines 177-182); the resume timeout fires 100 ms after that point, the
unmute timeout 4000 ms after it, and the cooldown timeout 8000 ms after the
unmute. -/
def triggerInterrupt (chatId : Option String) (isInterrupting : Bool)
    (injectDur : Nat) (outcome : InjectOutcome) (message : String) :
    List (Nat × Act) :=
  match chatId with
  | none => []
  | some cid =>
    if isInterrupting then []
    else
      [(0, Act.setCooldown), (0, Act.setInterrupting), (0, Act.mute), (0, Act.pauseAssistant),
       (200, Act.injectRequest cid message),
       (200 + injectDur, injectLog outcome),
       (200 + injectDur, Act.historyAppend "assistant" message),
       (200 + injectDur, Act.transcriptAppend message),
       (300 + injectDur, Act.resumeAssistant),
       (4200 + injectDur, Act.unmute),
       (4200 + injectDur, Act.clearInterrupting),
       (12200 + injectDur, Act.clearCooldown)]

/-- Log-entry test on actions. -/
def isLog : Act → Bool
  | Act.log _ => true
  | _ => false

/-- A timed trace with its console-log entries removed. -/
def nonLogActs (tr : List (Nat × Act)) : List (Nat × Act) :=
  tr.filter (fun ta => !isLog ta.2)

/-- A conversation-history entry (line 67). -/
structure HistEntry where
  role : String
  content : String
  deriving DecidableEq

/-- Effect of one `user_message` event on the conversation history ref
(lines 256-260): only a final message with truthy (non-empty) content is
appended. -/
def histAfterUserMessage (hist : List HistEntry) (isInterim : Bool)
    (content : String) : List HistEntry :=
  if !isInterim && !(content == "") then
    hist ++ [{ role := "user", content := content }]
  else hist

/-- The judge verdict object parsed out of the LLM reply in the judge-speech
route (route.ts, declared shape at line 143). -/
structure ParsedJudge where
  interrupt : Bool
  reason : String
  message : Option String
  deriving DecidableEq

/-- Outcome of the upstream LLM call in the judge-speech route: either a reply
content string, or a thrown error (network or SDK failure). -/
inductive LLMCall
  | replies (content : String)
  | throws
  deriving DecidableEq

/-- An HTTP response of the judge-speech route: either an error JSON with a
status code, or the 200 verdict JSON of lines 164-169. -/
inductive RouteResult
  | errorResp (status : Nat) (msg : String)
  | okResp (interrupt : Bool) (message : Option String) (reason : String)
  deriving DecidableEq

/-- Lower-cased apology prefix checked at line 158. -/
def apologyLower : List Char := "sorry to interrupt".data

/-- Models `m.toLowerCase().startsWith("sorry to interrupt")` (line 158). -/
def startsWithApology (m : String) : Bool :=
  apologyLower.isPrefixOf (lowerStr m)

/-- The literal prepended at line 159. -/
def apologyAnd : String := "Sorry to interrupt, but "

/-- Message normalization of lines 154-162: when the parsed verdict says
interrupt and carries a truthy (non-null, non-empty) message that does not
already start with the apology prefix (case-insensitively), prepend it. -/
def fixMessage (interrupt : Bool) (message : Option String) : Option String :=
  match message with
  | none => none
  | some m =>
    if interrupt && !(m == "") then
      if startsWithApology m then some m else some (apologyAnd ++ m)
    else some m

/-- The judge-speech POST handler (route.ts lines 83-177), with the LLM call
and the regex-extract-then-JSON.parse step (lines 144-152) abstracted: `call`
is the upstream outcome, `parse` maps the reply content to the parsed verdict
(`none` when no JSON object can be extracted, in which case the default
`interrupt: false` result of line 143 is kept). -/
def judgeSpeechPOST (apiKeySet : Bool) (speech : Option String)
    (call : LLMCall) (parse : String → Option ParsedJudge) : RouteResult :=
  if !apiKeySet then RouteResult.errorResp 500 "GROQ_API_KEY not configured"
  else
    match speech with
    | none => RouteResult.errorResp 400 "Missing or invalid speech field"
    | some _ =>
      match call with
      | LLMCall.throws => RouteResult.errorResp 500 "Failed to analyze speech"
      | LLMCall.replies content =>
        let result := (parse content).getD
          { interrupt := false, reason := "", message := none }
        RouteResult.okResp result.interrupt
          (fixMessage result.interrupt result.message) result.reason


theorem reachable_invariant {s : MState} (h : Reachable s) :
    (s.isInterrupting = true → s.isMuted = true) ∧
    (s.isPaused = true → s.timerRef = true) := by
  induction h with
  | init => exact ⟨fun h => Bool.noConfusion h, fun h => Bool.noConfusion h⟩
  | step hr hstep ih =>
    cases hstep with
    | pauseEnter h => exact ⟨fun _ => rfl, fun _ => rfl⟩
    | micTimerFireStep =>
      refine ⟨fun hI => ?_, ih.2⟩
      rw [if_pos hI]
      exact ih.1 hI
    | resumeStep h1 h2 h3 =>
      exact ⟨fun hI => by rw [h3] at hI; exact Bool.noConfusion hI,
             fun hP => Bool.noConfusion hP⟩
    | interruptStart h => exact ⟨fun _ => rfl, ih.2⟩
    | interruptHoldEnd => exact ⟨fun hI => Bool.noConfusion hI, ih.2⟩
    | cooldownEnd => exact ih
    | audioDuck => exact ih
    | audioUnduck => exact ih

/-- C3: the Judge Client issues a network call exactly when its four
preconditions hold, checked in source order with an early return on the first
failure: no cooldown and no active interruption, at least 8 words, at least
1.5 s of speaking time, and at least 400 ms since the previous issued call; in
particular an utterance with fewer than 8 words never issues a call and leaves
the judge state untouched. -/
theorem judge_call_preconditions (st : JudgeState) (speech : String) (now : Nat) :
    ((callLLMJudge st speech now).1.isSome = true ↔
      (st.interruptCooldown = false ∧ st.isInterrupting = false ∧
       MIN_WORDS_FOR_JUDGE ≤ wordCount speech ∧
       MIN_SPEAKING_TIME_MS ≤ now - st.turnStartTime ∧
       JUDGE_DEBOUNCE_MS ≤ now - st.lastJudgeTime)) ∧
    (wordCount speech < MIN_WORDS_FOR_JUDGE →
      callLLMJudge st speech now = (none, st)) := by
  constructor
  · unfold callLLMJudge
    split_ifs with h1 h2 h3 h4
    · rw [Bool.or_eq_true] at h1
      simp only [Option.isSome_none, Bool.false_eq_true, false_iff]
      rintro ⟨hc, hi, -, -, -⟩
      rcases h1 with h | h
      · rw [hc] at h; exact Bool.noConfusion h
      · rw [hi] at h; exact Bool.noConfusion h
    · simp only [Option.isSome_none, Bool.false_eq_true, false_iff]
      rintro ⟨-, -, hw, -, -⟩
      omega
    · simp only [Option.isSome_none, Bool.false_eq_true, false_iff]
      rintro ⟨-, -, -, hs, -⟩
      omega
    · simp only [Option.isSome_none, Bool.false_eq_true, false_iff]
      rintro ⟨-, -, -, -, hd⟩
      omega
    · simp only [Option.isSome_some, true_iff]
      simp only [Bool.or_eq_true, not_or, Bool.not_eq_true] at h1
      exact ⟨h1.1, h1.2, by omega, by omega, by omega⟩
  · intro hw
    unfold callLLMJudge
    split_ifs <;> rfl

/-- C3 witness: a 2-word utterance issues no call and changes nothing. -/
theorem judge_call_preconditions_witness :
    callLLMJudge ⟨false, false, 0, 0, none, [], 0⟩ "too short" 100000
      = (none, ⟨false, false, 0, 0, none, [], 0⟩) :=
  (judge_call_preconditions ⟨false, false, 0, 0, none, [], 0⟩ "too short" 100000).2
    (by decide)

/-- C4: after a call is issued at time `now`, no further call can be issued
less than 400 ms later while the recorded issue time is still `now` (so two
judge calls are never issued within 400 ms of each other, and only the last of
such a sequence not being canceled holds trivially); issuing a call marks the
still-outstanding previous call as canceled; and the eventual response of a
canceled call is discarded rather than applied. -/
theorem judge_debounce_and_cancellation (st : JudgeState) (speech : String)
    (now : Nat) (c : JudgeCall) (st' : JudgeState)
    (hdisp : callLLMJudge st speech now = (some c, st')) :
    st'.lastJudgeTime = now ∧
    (∀ (st2 : JudgeState) (speech2 : String) (now2 : Nat),
      st2.lastJudgeTime = now → now2 - now < JUDGE_DEBOUNCE_MS →
      (callLLMJudge st2 speech2 now2).1 = none) ∧
    (∀ k, st.outstanding = some k → st'.canceled.contains k = true) ∧
    (∀ (tok : Nat) (chatId : Option String) (v : Verdict),
      st'.canceled.contains tok = true →
      applyJudgeResponse st' tok chatId v = (st', none)) := by
  unfold callLLMJudge at hdisp
  split_ifs at hdisp with h1 h2 h3 h4
  · exact absurd hdisp (by simp)
  · exact absurd hdisp (by simp)
  · exact absurd hdisp (by simp)
  · exact absurd hdisp (by simp)
  · rw [Prod.mk.injEq] at hdisp
    obtain ⟨-, hst⟩ := hdisp
    subst hst
    refine ⟨rfl, ?_, ?_, ?_⟩
    · intro st2 speech2 now2 hlast2 hlt
      unfold callLLMJudge
      split_ifs with g1 g2 g3 g4 <;> first | rfl | (rw [hlast2] at g4; omega)
    · intro k hk
      simp only [hk]
      simp [List.contains]
    · intro tok chatId v htok
      unfold applyJudgeResponse
      rw [htok]
      rfl

/-- C4 witness: dispatching with token 5 outstanding cancels it, debounces the
next 100 ms, and discards token 5 eventual response. -/
theorem judge_debounce_and_cancellation_witness :
    (callLLMJudge ⟨false, false, 0, 100000, some 7, [5], 8⟩ "nine ten" 100100).1 = none ∧
    ([5] : List Nat).contains 5 = true ∧
    applyJudgeResponse ⟨false, false, 0, 100000, some 7, [5], 8⟩ 5 (some "chat")
      ⟨true, some "msg"⟩ = (⟨false, false, 0, 100000, some 7, [5], 8⟩, none) := by
  have h := judge_debounce_and_cancellation ⟨false, false, 0, 0, some 5, [], 7⟩
    "one two three four five six seven eight" 100000
    ⟨7, "one two three four five six seven eight", 100000⟩
    ⟨false, false, 0, 100000, some 7, [5], 8⟩ (by decide)
  exact ⟨h.2.1 ⟨false, false, 0, 100000, some 7, [5], 8⟩ "nine ten" 100100 rfl (by decide),
         h.2.2.1 5 rfl,
         h.2.2.2 5 (some "chat") ⟨true, some "msg"⟩ (by decide)⟩

/-- C7: a judge verdict whose message is missing or empty is a no-op even when
it says interrupt, and a verdict arriving before the chat id is known is
silently dropped: the state is unchanged and no interruption starts. -/
theorem judge_verdict_guard (st : JudgeState) (tok : Nat)
    (chatId : Option String) (v : Verdict) :
    ((v.message = none ∨ v.message = some "") →
      applyJudgeResponse st tok chatId v = (st, none)) ∧
    (chatId = none →
      applyJudgeResponse st tok chatId v = (st, none)) := by
  constructor
  · rintro (hm | hm) <;> unfold applyJudgeResponse <;> rw [hm] <;>
      split_ifs <;> simp
  · intro hc
    subst hc
    unfold applyJudgeResponse
    split_ifs with hck
    · rfl
    · cases hv : v.message with
      | none => rfl
      | some m => simp

/-- C7 witness: an interrupt verdict with no message, and one arriving with no
chat id, both leave the state unchanged and start nothing. -/
theorem judge_verdict_guard_witness :
    applyJudgeResponse ⟨false, false, 0, 0, none, [], 0⟩ 3 (some "chat") ⟨true, none⟩
      = (⟨false, false, 0, 0, none, [], 0⟩, none) ∧
    applyJudgeResponse ⟨false, false, 0, 0, none, [], 0⟩ 3 none ⟨true, some "x"⟩
      = (⟨false, false, 0, 0, none, [], 0⟩, none) :=
  ⟨(judge_verdict_guard ⟨false, false, 0, 0, none, [], 0⟩ 3 (some "chat") ⟨true, none⟩).1
      (Or.inl rfl),
   (judge_verdict_guard ⟨false, false, 0, 0, none, [], 0⟩ 3 none ⟨true, some "x"⟩).2 rfl⟩

/-- C1 (counterexample): the claim fails on the code in two reachable states.
In the Interrupting state (interrupting and cooldown flags set, reached by
starting an interruption from the initial state) the user message "quick"
still issues a mode-switch action, because `detectKeywords` never gates the
mode branches on the interruption flags; and in the Cooling state (interrupting
flag already cleared, cooldown still set) the user message "pause" issues the
full pause action sequence, because `triggerPause` checks only the
interrupting flag, not the cooldown. -/
theorem interrupt_exclusion_counterexample :
    Reachable ⟨false, true, false, true, true, false⟩ ∧
    (MState.mk false true false true true false).isInterrupting = true ∧
    detectKeywords "quick" false Mode.normal true false
      = [Act.setMode Mode.quick, Act.sendSessionSettings quickInstruction] ∧
    Reachable ⟨false, false, false, false, true, false⟩ ∧
    (MState.mk false false false false true false).isInterrupting = false ∧
    (MState.mk false false false false true false).cooldown = true ∧
    detectKeywords "pause" false Mode.normal false false
      = [Act.muteAudio, Act.mute, Act.setPaused, Act.armMicTimer 2000] :=
  ⟨Reachable.step Reachable.init (MStep.interruptStart initState rfl),
   rfl, by decide,
   Reachable.step (Reachable.step Reachable.init (MStep.interruptStart initState rfl))
     (MStep.interruptHoldEnd _),
   rfl, rfl, by decide⟩

/-- C1 (amended): while the interrupting flag is set, no pause action is
issued for any incoming user message — `triggerPause` returns without acting —
but mode-switch actions are not suppressed while interrupting, and pause
actions are not suppressed during the cooldown-only (Cooling) window, so the
suppression holds exactly for pause actions during the Interrupting phase. -/
theorem no_pause_action_while_interrupting (text : String) (isPaused : Bool)
    (mode : Mode) (timerRef : Bool) :
    (detectKeywords text isPaused mode true timerRef).filter isPauseAct = [] := by
  simp only [detectKeywords]
  split_ifs <;> rfl

/-- C2 (amended): with a known chat id and no interruption running, the
emitted sequence is exactly: set the cooldown and interrupting flags, mute the
microphone, pause the assistant (mute strictly preceding pause), dispatch the
injection request after the 200 ms settle delay, record the message in history
and transcript when the injection call completes, resume the assistant 100 ms
after that, unmute the microphone 4000 ms after the injection completes
(3900 ms after the resume), and clear the cooldown flag 8000 ms after the
unmute — 12200 ms plus the injection-call duration after entry, not 12 s. -/
theorem interrupt_action_sequence (cid m : String) (d : Nat) (o : InjectOutcome) :
    triggerInterrupt (some cid) false d o m =
      [(0, Act.setCooldown), (0, Act.setInterrupting), (0, Act.mute), (0, Act.pauseAssistant),
       (200, Act.injectRequest cid m),
       (200 + d, injectLog o),
       (200 + d, Act.historyAppend "assistant" m),
       (200 + d, Act.transcriptAppend m),
       (300 + d, Act.resumeAssistant),
       (4200 + d, Act.unmute),
       (4200 + d, Act.clearInterrupting),
       (12200 + d, Act.clearCooldown)] ∧
    ((triggerInterrupt (some cid) false d o m).map Prod.snd).take 4
      = [Act.setCooldown, Act.setInterrupting, Act.mute, Act.pauseAssistant] :=
  ⟨rfl, rfl⟩

/-- C2 (counterexample): even with an instantaneous injection call, the
cooldown flag is cleared 12200 ms after entering Interrupting, not 12000 ms,
and the unmute follows the resume by 3900 ms, not 4000 ms. -/
theorem interrupt_timing_counterexample :
    ((triggerInterrupt (some "chat") false 0 InjectOutcome.ok "msg").filter
        (fun ta => ta.2 == Act.clearCooldown)) = [(12200, Act.clearCooldown)] ∧
    (12200 : Nat) ≠ 12000 ∧
    ((triggerInterrupt (some "chat") false 0 InjectOutcome.ok "msg").filter
        (fun ta => ta.2 == Act.resumeAssistant)) = [(300, Act.resumeAssistant)] ∧
    ((triggerInterrupt (some "chat") false 0 InjectOutcome.ok "msg").filter
        (fun ta => ta.2 == Act.unmute)) = [(4200, Act.unmute)] ∧
    (4200 : Nat) - 300 = 3900 ∧ (3900 : Nat) ≠ 4000 := by decide

/-- C5: entering the paused state immediately mutes both the outbound
microphone and the inbound agent audio and arms a 2000 ms timer whose callback
re-opens the microphone only; and in any reachable paused state with the
microphone open, a final user utterance that is not a pause phrase and is
longer than 3 characters cancels the timer, unmutes both microphone and agent
audio, and returns to idle. -/
theorem pause_enter_and_resume (s : MState) (c : String) (tr : Bool) :
    triggerPause false tr =
      [Act.muteAudio, Act.mute, Act.setPaused] ++
        (if tr then [Act.cancelMicTimer] else []) ++ [Act.armMicTimer 2000] ∧
    micTimerFire false = [Act.unmute] ∧
    (Reachable s → s.isPaused = true → s.isMuted = false →
      isPausePhrase c = false → 3 < c.length →
      resumeEffect s c = [Act.cancelMicTimer, Act.unmuteAudio, Act.unmute, Act.setIdle]) := by
  refine ⟨rfl, rfl, ?_⟩
  intro hr hp hm hph hlen
  have inv := reachable_invariant hr
  have hint : s.isInterrupting = false := by
    cases hi : s.isInterrupting
    · rfl
    · rw [inv.1 hi] at hm; exact Bool.noConfusion hm
  have htr : s.timerRef = true := inv.2 hp
  unfold resumeEffect handleResume
  rw [hp, hm, hint, htr]
  simp [hph, hlen]

/-- C5 witness: in the reachable state paused-with-mic-reopened, the final
utterance "okay yes" resumes: timer canceled, both channels unmuted, idle. -/
theorem pause_enter_and_resume_witness :
    resumeEffect ⟨true, false, true, false, false, true⟩ "okay yes"
      = [Act.cancelMicTimer, Act.unmuteAudio, Act.unmute, Act.setIdle] :=
  (pause_enter_and_resume ⟨true, false, true, false, false, true⟩ "okay yes" true).2.2
    (Reachable.step (Reachable.step Reachable.init (MStep.pauseEnter initState rfl))
      (MStep.micTimerFireStep _))
    rfl rfl (by decide) (by decide)

/-- C6: the injection-call outcome changes nothing but the console log — the
non-log action traces of any two outcomes coincide — and in every case the
message is appended to the conversation history and the visible transcript,
and the resume, unmute and cooldown-clear steps still run. -/
theorem injection_failure_no_rollback (cid m : String) (d : Nat)
    (o1 o2 : InjectOutcome) :
    nonLogActs (triggerInterrupt (some cid) false d o1 m)
      = nonLogActs (triggerInterrupt (some cid) false d o2 m) ∧
    (200 + d, Act.historyAppend "assistant" m) ∈ triggerInterrupt (some cid) false d o1 m ∧
    (200 + d, Act.transcriptAppend m) ∈ triggerInterrupt (some cid) false d o1 m ∧
    (300 + d, Act.resumeAssistant) ∈ triggerInterrupt (some cid) false d o1 m ∧
    (4200 + d, Act.unmute) ∈ triggerInterrupt (some cid) false d o1 m ∧
    (12200 + d, Act.clearCooldown) ∈ triggerInterrupt (some cid) false d o1 m := by
  refine ⟨?_, ?_, ?_, ?_, ?_, ?_⟩
  · cases o1 <;> cases o2 <;> rfl
  all_goals simp [triggerInterrupt]

/-- C8 (counterexample): an interim user event followed by a final user event
with empty content for the same turn appends nothing to the conversation
history — zero entries, not exactly one. -/
theorem empty_final_history_counterexample :
    histAfterUserMessage
        (histAfterUserMessage [] true "um so I was thinking about it") false ""
      = [] ∧
    (histAfterUserMessage
        (histAfterUserMessage [] true "um so I was thinking about it") false "").length
      ≠ 1 := by decide

/-- C8 (amended): an interim user event followed by a final user event with
non-empty content appends exactly one history entry, whose content is the
final event content; interim events never append, and a final event with
empty content appends nothing either. -/
theorem interim_then_final_history (hist : List HistEntry) (cI cF c : String) :
    (cF ≠ "" →
      histAfterUserMessage (histAfterUserMessage hist true cI) false cF
        = hist ++ [{ role := "user", content := cF }]) ∧
    histAfterUserMessage hist true c = hist := by
  unfold histAfterUserMessage
  constructor
  · intro h
    simp [h]
  · simp

/-- C8 witness: interim "um hello" then final "final answer" yields exactly
the one final entry. -/
theorem interim_then_final_history_witness :
    histAfterUserMessage (histAfterUserMessage [] true "um hello") false "final answer"
      = [{ role := "user", content := "final answer" }] :=
  (interim_then_final_history [] "um hello" "final answer" "x").1 (by decide)

theorem startsWithApology_append (m : String) :
    startsWithApology (apologyAnd ++ m) = true := by
  unfold startsWithApology lowerStr
  rw [String.data_append, List.map_append, List.isPrefixOf_iff_prefix]
  have h1 : apologyLower <+: (apologyAnd.data.map Char.toLower) := by decide
  exact h1.trans (List.prefix_append _ _)

/-- C9 (counterexample): the claim fails on the code at two inputs. A parsed
verdict with interrupt=true and the non-null empty message is returned with
the empty message, which does not start with the stated prefix (the truthiness
check at line 156 skips empty strings); and a parsed message already starting
with the lower-case "sorry to interrupt" is returned unchanged, so it lacks
the capital-S prefix stated by the claim even though the server did not
prepend anything. -/
theorem apology_prefix_counterexample :
    judgeSpeechPOST true (some "hello there") (LLMCall.replies "x")
        (fun _ => some { interrupt := true, reason := "r", message := some "" })
      = RouteResult.okResp true (some "") "r" ∧
    ("Sorry to interrupt".data.isPrefixOf ("" : String).data) = false ∧
    judgeSpeechPOST true (some "hello there") (LLMCall.replies "x")
        (fun _ => some { interrupt := true, reason := "r",
                         message := some "sorry to interrupt, but is this the goal?" })
      = RouteResult.okResp true (some "sorry to interrupt, but is this the goal?") "r" ∧
    ("Sorry to interrupt".data.isPrefixOf
        ("sorry to interrupt, but is this the goal?" : String).data) = false := by
  decide

/-- C9 (amended): for every judge-speech response with interrupt=true and a
non-empty message parsed from the LLM output, the returned message starts
case-insensitively with "sorry to interrupt"; when the parsed message does not
already start so, the server prepends the apology prefix, otherwise it is
returned unchanged. -/
theorem judge_speech_apology_normalized (sp content rsn m : String)
    (parse : String → Option ParsedJudge)
    (hp : parse content = some { interrupt := true, reason := rsn, message := some m })
    (hm : m ≠ "") :
    (startsWithApology m = true →
      judgeSpeechPOST true (some sp) (LLMCall.replies content) parse
        = RouteResult.okResp true (some m) rsn) ∧
    (startsWithApology m = false →
      judgeSpeechPOST true (some sp) (LLMCall.replies content) parse
        = RouteResult.okResp true (some (apologyAnd ++ m)) rsn) ∧
    (∀ mOut, judgeSpeechPOST true (some sp) (LLMCall.replies content) parse
        = RouteResult.okResp true (some mOut) rsn → startsWithApology mOut = true) := by
  have hbe : (m == "") = false := beq_eq_false_iff_ne.mpr hm
  have hred : judgeSpeechPOST true (some sp) (LLMCall.replies content) parse
      = RouteResult.okResp true (fixMessage true (some m)) rsn := by
    simp [judgeSpeechPOST, hp]
  have hfix : fixMessage true (some m)
      = if startsWithApology m then some m else some (apologyAnd ++ m) := by
    simp only [fixMessage, hbe]
    rfl
  rw [hred, hfix]
  cases hsw : startsWithApology m with
  | false =>
    rw [if_neg (fun hc => Bool.noConfusion hc)]
    refine ⟨fun h => Bool.noConfusion h, fun _ => rfl, ?_⟩
    intro mOut hout
    rw [RouteResult.okResp.injEq] at hout
    obtain ⟨-, hmo, -⟩ := hout
    rw [Option.some.injEq] at hmo
    rw [← hmo]
    exact startsWithApology_append m
  | true =>
    rw [if_pos rfl]
    refine ⟨fun _ => rfl, fun h => Bool.noConfusion h, ?_⟩
    intro mOut hout
    rw [RouteResult.okResp.injEq] at hout
    obtain ⟨-, hmo, -⟩ := hout
    rw [Option.some.injEq] at hmo
    rw [← hmo]
    exact hsw

/-- C9 witness: a parsed message lacking the prefix gets it prepended. -/
theorem judge_speech_apology_normalized_witness :
    judgeSpeechPOST true (some "sp") (LLMCall.replies "x")
        (fun _ => some { interrupt := true, reason := "r", message := some "help me focus" })
      = RouteResult.okResp true (some (apologyAnd ++ "help me focus")) "r" :=
  (judge_speech_apology_normalized "sp" "x" "r" "help me focus"
      (fun _ => some { interrupt := true, reason := "r", message := some "help me focus" })
      rfl (by decide)).2.1 (by decide)

/-- C10: a judge-speech request with a valid speech string whose LLM reply
contains no parseable JSON object still yields the 200 response with
interrupt=false (the line-143 default), never interrupt=true and never a
parse-failure error status; only a thrown upstream error yields a 500. -/
theorem judge_speech_parse_failure (sp content : String)
    (parse : String → Option ParsedJudge) (h : parse content = none) :
    judgeSpeechPOST true (some sp) (LLMCall.replies content) parse
      = RouteResult.okResp false none "" ∧
    judgeSpeechPOST true (some sp) LLMCall.throws parse
      = RouteResult.errorResp 500 "Failed to analyze speech" := by
  constructor
  · simp [judgeSpeechPOST, h, fixMessage]
  · rfl

/-- C10 witness: a reply with no JSON object yields 200 and interrupt=false. -/
theorem judge_speech_parse_failure_witness :
    judgeSpeechPOST true (some "hello") (LLMCall.replies "no json here") (fun _ => none)
      = RouteResult.okResp false none "" :=
  (judge_speech_parse_failure "hello" "no json here" (fun _ => none) rfl).1

end ImmersiveEVI
